import Mathlib

/-!
# Dispatch loop of the ChatGPT / Telegram bridge (`src/main.go`)

The body of the `for update := range bot.GetUpdatesChan()` loop of `main` is
embedded as a pure function from one inbound update to the ordered list of
calls the loop body makes on its collaborators (`bot`, `chatGPT`,
`persistentConfig`, `log`).  The collaborators live in other packages; what
they return to the loop body is supplied by a `World` record.
-/

namespace ChatGPTTelegram

/-! ## Data model -/

/-- Go `time.Duration`: a signed count of nanoseconds. -/
structure Duration where
  ns : Int
deriving DecidableEq, Repr

/-- Go `time.Second`. -/
def Second : Duration := ⟨1000000000⟩

/-- Go `time.Duration(n)` for an integer `n`: a type conversion, the number is
kept as it is and is read as nanoseconds. -/
def toDuration (n : Int) : Duration := ⟨n⟩

/-- The fields of `config.EnvConfig` that `main` reads. -/
structure EnvConfig where
  TelegramID : List Int
  TelegramToken : String
  EditWaitSeconds : Int
  ManualAuth : Bool
deriving Repr

/-- Modelled from the spec: `config.EnvConfig.HasTelegramID` is declared in the
`config` package, outside `main.go`.  The spec describes `allowedUserIDs` as a
set of IDs, so the lookup is membership of the ID in `TelegramID`. -/
def EnvConfig.HasTelegramID (envConfig : EnvConfig) (id : Int) : Bool :=
  decide (id ∈ envConfig.TelegramID)

/-- Telegram chat; `chatType` is the `Type` field of the Bot API
("private", "group", "supergroup" or "channel"). -/
structure Chat where
  ID : Int
  chatType : String
deriving Repr

/-- Telegram client library: `Chat.IsPrivate`. -/
def Chat.IsPrivate (c : Chat) : Bool := decide (c.chatType = "private")

/-- Telegram client library: `Chat.IsGroup`. -/
def Chat.IsGroup (c : Chat) : Bool := decide (c.chatType = "group")

/-- Telegram client library: `Chat.IsSuperGroup`. -/
def Chat.IsSuperGroup (c : Chat) : Bool := decide (c.chatType = "supergroup")

/-- Telegram user. -/
structure User where
  ID : Int
deriving Repr

/-- Telegram message as the loop body sees it.  `IsCommand`, `Command` and
`CommandArguments` hold the results of the client library's methods of the
same names on this message; they are inputs here, with no relation assumed
between them. -/
structure Message where
  MessageID : Int
  From : User
  Chat : Chat
  Text : String
  IsCommand : Bool
  Command : String
  CommandArguments : String
deriving Repr

/-- Inbound update; `Message` is `none` for Go's `update.Message == nil`. -/
structure Update where
  Message : Option Message
deriving Repr

/-- Contents of the channel returned by `chatGPT.SendMessage`: the answer
fragments in emission order. -/
abbrev Feed := List String

/-- One call made by the loop body on a collaborator. -/
inductive Action where
  /-- Call of `bot.Send(chatID, replyTo, text)`. -/
  | Send (chatID : Int) (replyTo : Int) (text : String)
  /-- Call of `bot.SendTyping(chatID)`. -/
  | SendTyping (chatID : Int)
  /-- Call of `chatGPT.SendMessage(text, chatID)`. -/
  | SendMessage (text : String) (chatID : Int)
  /-- Call of `bot.SendAsLiveOutput(chatID, replyTo, feed)`. -/
  | SendAsLiveOutput (chatID : Int) (replyTo : Int) (feed : Feed)
  /-- Call of `chatGPT.ResetConversation(chatID)`. -/
  | ResetConversation (chatID : Int)
  /-- Call of `persistentConfig.SetSessionToken(token)`. -/
  | SetSessionToken (token : String)
  /-- Call of `log.Printf`, with the formatted line. -/
  | Log (line : String)
deriving DecidableEq, Repr

/-- What the collaborators return to the loop body.  An error is represented
by its message (`err.Error()`), `none` is Go's `nil` error. -/
structure World where
  /-- Result of `chatGPT.SendMessage(text, chatID)`. -/
  SendMessage : String → Int → Except String Feed
  /-- Error result of `persistentConfig.SetSessionToken(token)`. -/
  SetSessionToken : String → Option String
  /-- Error result of `bot.Send(chatID, replyTo, text)`. -/
  Send : Int → Int → String → Option String

/-! ## Constants of `main.go` -/

def messageStart : String :=
  "Send a message to start talking with ChatGPT. You can use /reload at any point to clear the conversation history and start from scratch (don't worry, it won't delete the Telegram messages)."

def messageHelp : String :=
  "/reload - clear chatGPT conversation history (Telegram messages will not be deleted)\n/setToken <token> - set the openAI session token"

/-- Text of the reply of lines 82-86. -/
def messageUnauthorized : String := "You are not authorized to use this bot."

/-! ## Library functions used by the loop body -/

/-- Go `strings.HasPrefix`. -/
def HasPrefix (s p : String) : Bool := p.data.isPrefixOf s.data

/-- Go `strings.HasSuffix`. -/
def HasSuffix (s p : String) : Bool := p.data.isSuffixOf s.data

/-- Go `fmt.Sprintf("Error: %v", err)` for a non-nil error with message `err`. -/
def sprintfError (err : String) : String := "Error: " ++ err

/-! ## The loop body -/

/-- Line 77: `isChatBotInGroup`. -/
def isChatBotInGroup (msg : Message) : Bool :=
  msg.Chat.IsGroup || msg.Chat.IsSuperGroup

/-- Line 78: `isAtChatBot`. -/
def isAtChatBot (botUsername : String) (msg : Message) : Bool :=
  HasPrefix msg.Text ("@" ++ botUsername) || HasSuffix msg.Text ("@" ++ botUsername)

/-- Line 82: the condition of the allow-list gate. -/
def notAllowed (envConfig : EnvConfig) (msg : Message) : Bool :=
  envConfig.TelegramID.length != 0 && !envConfig.HasTelegramID msg.From.ID

/-- Line 88: the condition of the conversation branch. -/
def isConversation (botUsername : String) (msg : Message) : Bool :=
  !msg.IsCommand && (msg.Chat.IsPrivate || (isChatBotInGroup msg && isAtChatBot botUsername msg))

/-- Lines 100-122: the `switch` on the command name.  Returns the calls made
inside the switch and the value of `text` after it. -/
def commandSwitch (w : World) (msg : Message) : List Action × String :=
  if msg.Command = "help" then ([], messageHelp)
  else if msg.Command = "start" then ([], messageStart)
  else if msg.Command = "setToken" then
    let token := msg.CommandArguments
    if token = "" then ([], "Please provide a token. Example: /setToken eyJhB...")
    else
      match w.SetSessionToken token with
      | some err => ([Action.SetSessionToken token], sprintfError err)
      | none => ([Action.SetSessionToken token], "Token set successfully.")
  else if msg.Command = "reload" then
    ([Action.ResetConversation msg.Chat.ID], "Started a new conversation. Enjoy!")
  else ([], "Unknown command. Send /help to see a list of commands.")

/-- Lines 67-127: one iteration of the update loop, as the list of calls it
makes, in order. -/
def handleUpdate (envConfig : EnvConfig) (botUsername : String) (w : World)
    (update : Update) : List Action :=
  match update.Message with
  | none => []
  | some msg =>
    let updateText := msg.Text
    let updateChatID := msg.Chat.ID
    let updateMessageID := msg.MessageID
    let updateUserID := msg.From.ID
    if notAllowed envConfig msg then
      [Action.Log ("User " ++ toString updateUserID ++ " is not allowed to use this bot"),
       Action.Send updateChatID updateMessageID messageUnauthorized]
    else if isConversation botUsername msg then
      [Action.SendTyping updateChatID, Action.SendMessage updateText updateChatID] ++
        (match w.SendMessage updateText updateChatID with
         | Except.error err => [Action.Send updateChatID updateMessageID (sprintfError err)]
         | Except.ok feed => [Action.SendAsLiveOutput updateChatID updateMessageID feed])
    else
      let r := commandSwitch w msg
      r.1 ++ [Action.Send updateChatID updateMessageID r.2] ++
        (match w.Send updateChatID updateMessageID r.2 with
         | some err => [Action.Log ("Error sending message: " ++ err)]
         | none => [])

/-- Line 52: the second argument of `tgbot.New`. -/
def editInterval (envConfig : EnvConfig) : Duration :=
  toDuration envConfig.EditWaitSeconds

/-! ## Vocabulary for the statements -/

/-- Calls other than `log.Printf`: everything the loop body does to the
messaging platform, the backend, the conversation store and the credential. -/
def effects (tr : List Action) : List Action :=
  tr.filter (fun a => match a with
    | Action.Log _ => false
    | _ => true)

/-- Chat ID carried by a call, if it carries one. -/
def Action.chat : Action → Option Int
  | Action.Send c _ _ => some c
  | Action.SendTyping c => some c
  | Action.SendMessage _ c => some c
  | Action.SendAsLiveOutput c _ _ => some c
  | Action.ResetConversation c => some c
  | Action.SetSessionToken _ => none
  | Action.Log _ => none

/-- Message ID a call replies to, if it is a send or a live output. -/
def Action.reply : Action → Option Int
  | Action.Send _ m _ => some m
  | Action.SendAsLiveOutput _ m _ => some m
  | _ => none

/-- Backend calls in a trace. -/
def isBackendCall : Action → Bool
  | Action.SendMessage _ _ => true
  | _ => false

/-- Live output calls in a trace. -/
def isLiveOutput : Action → Bool
  | Action.SendAsLiveOutput _ _ _ => true
  | _ => false

/-- Calls of `bot.Send` in a trace. -/
def isSend : Action → Bool
  | Action.Send _ _ _ => true
  | _ => false

/-- A world in which every collaborator call succeeds and the backend streams
the three fragments of the spec's scenario. -/
def okWorld : World :=
  ⟨fun _ _ => Except.ok ["Hel", "Hello there", "Hello there!"], fun _ => none, fun _ _ _ => none⟩

/-- A world in which the backend and the credential store fail. -/
def failWorld : World :=
  ⟨fun _ _ => Except.error "auth expired", fun _ => some "disk full", fun _ _ _ => none⟩

/-- A message in a private chat from user 7. -/
def privateMsg (text : String) : Message :=
  ⟨11, ⟨7⟩, ⟨100, "private"⟩, text, false, "", ""⟩

/-- A non-command message in a group chat from user 7. -/
def groupMsg (text : String) : Message :=
  ⟨12, ⟨7⟩, ⟨-200, "group"⟩, text, false, "", ""⟩

/-- A command message in a private chat from user 7. -/
def commandMsg (text name args : String) : Message :=
  ⟨13, ⟨7⟩, ⟨100, "private"⟩, text, true, name, args⟩

/-- A configuration with the given allow-list. -/
def cfg (ids : List Int) : EnvConfig := ⟨ids, "token", 1, false⟩

/-! ## Lemmas on the three branches of the loop body -/

theorem notAllowed_iff (envConfig : EnvConfig) (msg : Message) :
    notAllowed envConfig msg = true ↔
      envConfig.TelegramID ≠ [] ∧ msg.From.ID ∉ envConfig.TelegramID := by
  simp [notAllowed, EnvConfig.HasTelegramID]

theorem notAllowed_false_of_authorized (envConfig : EnvConfig) (msg : Message)
    (hauth : envConfig.TelegramID = [] ∨ msg.From.ID ∈ envConfig.TelegramID) :
    notAllowed envConfig msg = false := by
  cases h : notAllowed envConfig msg with
  | false => rfl
  | true =>
    have h2 := (notAllowed_iff envConfig msg).1 h
    rcases hauth with h1 | h1
    · exact absurd h1 h2.1
    · exact absurd h1 h2.2

theorem handleUpdate_rejected (envConfig : EnvConfig) (botUsername : String) (w : World)
    (msg : Message) (h : notAllowed envConfig msg = true) :
    handleUpdate envConfig botUsername w ⟨some msg⟩ =
      [Action.Log ("User " ++ toString msg.From.ID ++ " is not allowed to use this bot"),
       Action.Send msg.Chat.ID msg.MessageID messageUnauthorized] := by
  simp [handleUpdate, h]

theorem handleUpdate_conversation (envConfig : EnvConfig) (botUsername : String) (w : World)
    (msg : Message) (h : notAllowed envConfig msg = false)
    (hc : isConversation botUsername msg = true) :
    handleUpdate envConfig botUsername w ⟨some msg⟩ =
      [Action.SendTyping msg.Chat.ID, Action.SendMessage msg.Text msg.Chat.ID] ++
        (match w.SendMessage msg.Text msg.Chat.ID with
         | Except.error err => [Action.Send msg.Chat.ID msg.MessageID (sprintfError err)]
         | Except.ok feed => [Action.SendAsLiveOutput msg.Chat.ID msg.MessageID feed]) := by
  simp [handleUpdate, h, hc]

theorem handleUpdate_command (envConfig : EnvConfig) (botUsername : String) (w : World)
    (msg : Message) (h : notAllowed envConfig msg = false)
    (hc : isConversation botUsername msg = false) :
    handleUpdate envConfig botUsername w ⟨some msg⟩ =
      (commandSwitch w msg).1 ++
        [Action.Send msg.Chat.ID msg.MessageID (commandSwitch w msg).2] ++
        (match w.Send msg.Chat.ID msg.MessageID (commandSwitch w msg).2 with
         | some err => [Action.Log ("Error sending message: " ++ err)]
         | none => []) := by
  simp [handleUpdate, h, hc]

theorem isConversation_of_command (botUsername : String) (msg : Message)
    (h : msg.IsCommand = true) : isConversation botUsername msg = false := by
  simp [isConversation, h]

theorem isConversation_of_free_text (botUsername : String) (msg : Message)
    (hcmd : msg.IsCommand = false)
    (hwhere : msg.Chat.IsPrivate = true ∨
      ((msg.Chat.IsGroup = true ∨ msg.Chat.IsSuperGroup = true) ∧
        (HasPrefix msg.Text ("@" ++ botUsername) = true ∨
          HasSuffix msg.Text ("@" ++ botUsername) = true))) :
    isConversation botUsername msg = true := by
  simp only [isConversation, isChatBotInGroup, isAtChatBot, hcmd, Bool.not_false,
    Bool.true_and, Bool.or_eq_true, Bool.and_eq_true]
  exact hwhere

theorem effects_append (xs ys : List Action) : effects (xs ++ ys) = effects xs ++ effects ys := by
  simp [effects]

theorem effects_send_tail (c m : Int) (text : String) (o : Option String) :
    effects ([Action.Send c m text] ++
      (match o with
       | some err => [Action.Log ("Error sending message: " ++ err)]
       | none => [])) = [Action.Send c m text] := by
  cases o <;> simp [effects]

theorem effects_command (envConfig : EnvConfig) (botUsername : String) (w : World)
    (msg : Message) (h : notAllowed envConfig msg = false)
    (hc : isConversation botUsername msg = false) :
    effects (handleUpdate envConfig botUsername w ⟨some msg⟩) =
      effects (commandSwitch w msg).1 ++
        [Action.Send msg.Chat.ID msg.MessageID (commandSwitch w msg).2] := by
  rw [handleUpdate_command envConfig botUsername w msg h hc, List.append_assoc,
    effects_append, effects_send_tail]

theorem sprintfError_ne_unauthorized (err : String) :
    sprintfError err ≠ messageUnauthorized := by
  intro h
  have h2 := congrArg String.data h
  simp [sprintfError, messageUnauthorized] at h2

theorem commandSwitch_text_ne_unauthorized (w : World) (msg : Message) :
    (commandSwitch w msg).2 ≠ messageUnauthorized := by
  simp only [commandSwitch]
  repeat' split
  all_goals first
    | exact sprintfError_ne_unauthorized _
    | (simp only []; decide)

theorem commandSwitch_calls_no_send (w : World) (msg : Message) (c m : Int) (t : String) :
    Action.Send c m t ∉ (commandSwitch w msg).1 := by
  simp only [commandSwitch]
  repeat' split
  all_goals simp

theorem commandSwitch_calls (w : World) (msg : Message) :
    (commandSwitch w msg).1 = [] ∨
      (commandSwitch w msg).1 = [Action.SetSessionToken msg.CommandArguments] ∨
      (commandSwitch w msg).1 = [Action.ResetConversation msg.Chat.ID] := by
  simp only [commandSwitch]
  repeat' split
  all_goals simp

theorem log_tail_cases (o : Option String) :
    (match o with
      | some err => [Action.Log ("Error sending message: " ++ err)]
      | none => ([] : List Action)) = [] ∨
    ∃ line, (match o with
      | some err => [Action.Log ("Error sending message: " ++ err)]
      | none => ([] : List Action)) = [Action.Log line] := by
  cases o with
  | none => exact Or.inl rfl
  | some err => exact Or.inr ⟨_, rfl⟩

/-! ## The claims -/

/-- C1: an update whose sender is rejected by the allow-list check (list
non-empty, sender not in it) is answered, whatever its text, chat kind or
command name, by the log line and one reply "You are not authorized to use this
bot." to the issuing message in the issuing chat, and by nothing else: no
backend call, no typing indicator, no live output, no reset, no token write. -/
theorem C1_unauthorized_rejected (envConfig : EnvConfig) (botUsername : String) (w : World)
    (msg : Message) (hne : envConfig.TelegramID ≠ [])
    (hnot : msg.From.ID ∉ envConfig.TelegramID) :
    handleUpdate envConfig botUsername w ⟨some msg⟩ =
        [Action.Log ("User " ++ toString msg.From.ID ++ " is not allowed to use this bot"),
         Action.Send msg.Chat.ID msg.MessageID "You are not authorized to use this bot."] ∧
      effects (handleUpdate envConfig botUsername w ⟨some msg⟩) =
        [Action.Send msg.Chat.ID msg.MessageID "You are not authorized to use this bot."] := by
  have h := (notAllowed_iff envConfig msg).2 ⟨hne, hnot⟩
  rw [handleUpdate_rejected envConfig botUsername w msg h]
  exact ⟨rfl, rfl⟩

theorem C1_unauthorized_rejected_witness :
    (cfg [1]).TelegramID ≠ [] ∧ (commandMsg "/reload" "reload" "").From.ID ∉ (cfg [1]).TelegramID ∧
      effects (handleUpdate (cfg [1]) "bot" okWorld ⟨some (commandMsg "/reload" "reload" "")⟩) =
        [Action.Send 100 13 "You are not authorized to use this bot."] :=
  ⟨by decide, by decide,
    (C1_unauthorized_rejected (cfg [1]) "bot" okWorld (commandMsg "/reload" "reload" "")
      (by decide) (by decide)).2⟩

/-- C2: the allow-list gate fires, and the update is answered with the
unauthorized reply, if and only if the allow-list is non-empty and the sender's
ID is not in it; with an empty list, or with a sender on the list, no send of
the unauthorized text occurs. -/
theorem C2_rejected_iff (envConfig : EnvConfig) (botUsername : String) (w : World)
    (msg : Message) :
    (notAllowed envConfig msg = true ↔
        envConfig.TelegramID ≠ [] ∧ msg.From.ID ∉ envConfig.TelegramID) ∧
      ((∃ c m, Action.Send c m messageUnauthorized ∈
            handleUpdate envConfig botUsername w ⟨some msg⟩) ↔
        envConfig.TelegramID ≠ [] ∧ msg.From.ID ∉ envConfig.TelegramID) := by
  refine ⟨notAllowed_iff envConfig msg, ?_⟩
  rw [← notAllowed_iff]
  constructor
  · rintro ⟨c, m, hmem⟩
    cases h : notAllowed envConfig msg with
    | true => rfl
    | false =>
      exfalso
      cases hc : isConversation botUsername msg with
      | true =>
        rw [handleUpdate_conversation envConfig botUsername w msg h hc] at hmem
        cases hr : w.SendMessage msg.Text msg.Chat.ID with
        | error err =>
          simp [hr] at hmem
          exact sprintfError_ne_unauthorized err hmem.2.2.symm
        | ok feed => simp [hr] at hmem
      | false =>
        rw [handleUpdate_command envConfig botUsername w msg h hc] at hmem
        rcases List.mem_append.1 hmem with h1 | h1
        · rcases List.mem_append.1 h1 with h2 | h2
          · exact commandSwitch_calls_no_send w msg c m messageUnauthorized h2
          · simp at h2
            exact commandSwitch_text_ne_unauthorized w msg h2.2.2.symm
        · cases hs : w.Send msg.Chat.ID msg.MessageID (commandSwitch w msg).2 <;>
            simp [hs] at h1
  · intro h
    exact ⟨msg.Chat.ID, msg.MessageID, by
      rw [handleUpdate_rejected envConfig botUsername w msg h]; simp⟩

theorem C2_rejected_iff_witness :
    (notAllowed (cfg [1, 2]) (privateMsg "Hello") = true) ∧
      (∃ c m, Action.Send c m messageUnauthorized ∈
        handleUpdate (cfg [1, 2]) "bot" okWorld ⟨some (privateMsg "Hello")⟩) ∧
      ¬ (∃ c m, Action.Send c m messageUnauthorized ∈
        handleUpdate (cfg []) "bot" okWorld ⟨some (privateMsg "Hello")⟩) ∧
      ¬ (∃ c m, Action.Send c m messageUnauthorized ∈
        handleUpdate (cfg [7]) "bot" okWorld ⟨some (privateMsg "Hello")⟩) :=
  ⟨(C2_rejected_iff (cfg [1, 2]) "bot" okWorld (privateMsg "Hello")).1.2 (by decide),
   (C2_rejected_iff (cfg [1, 2]) "bot" okWorld (privateMsg "Hello")).2.2 (by decide),
   fun h => ((C2_rejected_iff (cfg []) "bot" okWorld (privateMsg "Hello")).2.1 h).1 rfl,
   fun h => ((C2_rejected_iff (cfg [7]) "bot" okWorld (privateMsg "Hello")).2.1 h).2 (by decide)⟩

/-- C3: an authorized non-command message in a private chat, or in a group or
supergroup with a text that begins or ends with "@" and the bot's username, is
conversed: typing indicator to the issuing chat first, then one backend call
with the text unchanged and the issuing chat ID; when the call succeeds the
returned feed goes once to the live output for that chat as a reply to the
issuing message, and nothing else is called. -/
theorem C3_free_text_converses (envConfig : EnvConfig) (botUsername : String) (w : World)
    (msg : Message)
    (hauth : envConfig.TelegramID = [] ∨ msg.From.ID ∈ envConfig.TelegramID)
    (hcmd : msg.IsCommand = false)
    (hwhere : msg.Chat.IsPrivate = true ∨
      ((msg.Chat.IsGroup = true ∨ msg.Chat.IsSuperGroup = true) ∧
        (HasPrefix msg.Text ("@" ++ botUsername) = true ∨
          HasSuffix msg.Text ("@" ++ botUsername) = true))) :
    (handleUpdate envConfig botUsername w ⟨some msg⟩).take 2 =
        [Action.SendTyping msg.Chat.ID, Action.SendMessage msg.Text msg.Chat.ID] ∧
      (handleUpdate envConfig botUsername w ⟨some msg⟩).countP isBackendCall = 1 ∧
      ∀ feed : Feed, w.SendMessage msg.Text msg.Chat.ID = Except.ok feed →
        handleUpdate envConfig botUsername w ⟨some msg⟩ =
          [Action.SendTyping msg.Chat.ID, Action.SendMessage msg.Text msg.Chat.ID,
           Action.SendAsLiveOutput msg.Chat.ID msg.MessageID feed] := by
  rw [handleUpdate_conversation envConfig botUsername w msg
    (notAllowed_false_of_authorized envConfig msg hauth)
    (isConversation_of_free_text botUsername msg hcmd hwhere)]
  cases hr : w.SendMessage msg.Text msg.Chat.ID with
  | error err => simp [isBackendCall]
  | ok feed => simp [isBackendCall]

theorem C3_free_text_converses_witness :
    handleUpdate (cfg [7]) "bot" okWorld ⟨some (groupMsg "@bot Hello")⟩ =
      [Action.SendTyping (-200), Action.SendMessage "@bot Hello" (-200),
       Action.SendAsLiveOutput (-200) 12 ["Hel", "Hello there", "Hello there!"]] :=
  (C3_free_text_converses (cfg [7]) "bot" okWorld (groupMsg "@bot Hello")
    (Or.inr (by decide)) rfl (Or.inr ⟨Or.inl (by decide), Or.inl (by decide)⟩)).2.2
    ["Hel", "Hello there", "Hello there!"] rfl

/-- C5: when the backend call of a free-text update fails with error `err`, the
calls are the typing indicator, the backend call and one reply to the issuing
message with text "Error: " followed by the error's message; no live output,
no conversation reset and no token write. -/
theorem C5_backend_error_reported (envConfig : EnvConfig) (botUsername : String) (w : World)
    (msg : Message) (err : String)
    (hauth : envConfig.TelegramID = [] ∨ msg.From.ID ∈ envConfig.TelegramID)
    (hcmd : msg.IsCommand = false)
    (hwhere : msg.Chat.IsPrivate = true ∨
      ((msg.Chat.IsGroup = true ∨ msg.Chat.IsSuperGroup = true) ∧
        (HasPrefix msg.Text ("@" ++ botUsername) = true ∨
          HasSuffix msg.Text ("@" ++ botUsername) = true)))
    (hfail : w.SendMessage msg.Text msg.Chat.ID = Except.error err) :
    handleUpdate envConfig botUsername w ⟨some msg⟩ =
      [Action.SendTyping msg.Chat.ID, Action.SendMessage msg.Text msg.Chat.ID,
       Action.Send msg.Chat.ID msg.MessageID ("Error: " ++ err)] := by
  rw [handleUpdate_conversation envConfig botUsername w msg
    (notAllowed_false_of_authorized envConfig msg hauth)
    (isConversation_of_free_text botUsername msg hcmd hwhere), hfail]
  rfl

theorem C5_backend_error_reported_witness :
    handleUpdate (cfg []) "bot" failWorld ⟨some (privateMsg "Hello")⟩ =
      [Action.SendTyping 100, Action.SendMessage "Hello" 100,
       Action.Send 100 11 "Error: auth expired"] :=
  C5_backend_error_reported (cfg []) "bot" failWorld (privateMsg "Hello") "auth expired"
    (Or.inl rfl) rfl (Or.inl (by decide)) rfl

/-- C6: an authorized /reload command from chat c resets the conversation of c
once, of no other chat, makes no backend call, and then sends one reply to c
with the text "Started a new conversation. Enjoy!". -/
theorem C6_reload_resets_issuing_chat (envConfig : EnvConfig) (botUsername : String)
    (w : World) (msg : Message)
    (hauth : envConfig.TelegramID = [] ∨ msg.From.ID ∈ envConfig.TelegramID)
    (hcmd : msg.IsCommand = true) (hname : msg.Command = "reload") :
    effects (handleUpdate envConfig botUsername w ⟨some msg⟩) =
      [Action.ResetConversation msg.Chat.ID,
       Action.Send msg.Chat.ID msg.MessageID "Started a new conversation. Enjoy!"] := by
  rw [effects_command envConfig botUsername w msg
    (notAllowed_false_of_authorized envConfig msg hauth)
    (isConversation_of_command botUsername msg hcmd)]
  simp [commandSwitch, hname, effects]

theorem C6_reload_resets_issuing_chat_witness :
    effects (handleUpdate (cfg []) "bot" okWorld ⟨some (commandMsg "/reload" "reload" "")⟩) =
      [Action.ResetConversation 100,
       Action.Send 100 13 "Started a new conversation. Enjoy!"] :=
  C6_reload_resets_issuing_chat (cfg []) "bot" okWorld (commandMsg "/reload" "reload" "")
    (Or.inl rfl) rfl rfl

/-- C7: an authorized /setToken command with a non-empty argument t asks the
credential store once to persist exactly t; the reply is "Token set
successfully." when that succeeds and "Error: " followed by the error's message
when it fails; with an empty argument nothing is persisted and the reply is
"Please provide a token. Example: /setToken eyJhB...". -/
theorem C7_setToken (envConfig : EnvConfig) (botUsername : String) (w : World)
    (msg : Message)
    (hauth : envConfig.TelegramID = [] ∨ msg.From.ID ∈ envConfig.TelegramID)
    (hcmd : msg.IsCommand = true) (hname : msg.Command = "setToken") :
    (msg.CommandArguments ≠ "" → w.SetSessionToken msg.CommandArguments = none →
        effects (handleUpdate envConfig botUsername w ⟨some msg⟩) =
          [Action.SetSessionToken msg.CommandArguments,
           Action.Send msg.Chat.ID msg.MessageID "Token set successfully."]) ∧
      (∀ err : String, msg.CommandArguments ≠ "" →
        w.SetSessionToken msg.CommandArguments = some err →
        effects (handleUpdate envConfig botUsername w ⟨some msg⟩) =
          [Action.SetSessionToken msg.CommandArguments,
           Action.Send msg.Chat.ID msg.MessageID ("Error: " ++ err)]) ∧
      (msg.CommandArguments = "" →
        effects (handleUpdate envConfig botUsername w ⟨some msg⟩) =
          [Action.Send msg.Chat.ID msg.MessageID
            "Please provide a token. Example: /setToken eyJhB..."]) := by
  rw [effects_command envConfig botUsername w msg
    (notAllowed_false_of_authorized envConfig msg hauth)
    (isConversation_of_command botUsername msg hcmd)]
  refine ⟨?_, ?_, ?_⟩
  · intro hne hok
    simp [commandSwitch, hname, hne, hok, effects]
  · intro err hne hfail
    simp [commandSwitch, hname, hne, hfail, effects, sprintfError]
  · intro hempty
    simp [commandSwitch, hname, hempty, effects]

theorem C7_setToken_witness :
    effects (handleUpdate (cfg []) "bot" okWorld
        ⟨some (commandMsg "/setToken abc123" "setToken" "abc123")⟩) =
        [Action.SetSessionToken "abc123", Action.Send 100 13 "Token set successfully."] ∧
      effects (handleUpdate (cfg []) "bot" failWorld
        ⟨some (commandMsg "/setToken abc123" "setToken" "abc123")⟩) =
        [Action.SetSessionToken "abc123", Action.Send 100 13 "Error: disk full"] ∧
      effects (handleUpdate (cfg []) "bot" okWorld
        ⟨some (commandMsg "/setToken" "setToken" "")⟩) =
        [Action.Send 100 13 "Please provide a token. Example: /setToken eyJhB..."] :=
  ⟨(C7_setToken (cfg []) "bot" okWorld (commandMsg "/setToken abc123" "setToken" "abc123")
      (Or.inl rfl) rfl rfl).1 (by decide) rfl,
   (C7_setToken (cfg []) "bot" failWorld (commandMsg "/setToken abc123" "setToken" "abc123")
      (Or.inl rfl) rfl rfl).2.1 "disk full" (by decide) rfl,
   (C7_setToken (cfg []) "bot" okWorld (commandMsg "/setToken" "setToken" "")
      (Or.inl rfl) rfl rfl).2.2 rfl⟩

/-- C9: an authorized command update gets exactly one reply, to the issuing
message in the issuing chat, and neither the backend nor the live output is
called.  The reply is the help text of main.go lines 20-21 for "help" (it
lists /reload and /setToken), the usage banner of line 19 for "start", both
spelled out, and "Unknown command. Send /help to
see a list of commands." for every name other than help, start, setToken and
reload. -/
theorem C9_command_single_reply (envConfig : EnvConfig) (botUsername : String) (w : World)
    (msg : Message)
    (hauth : envConfig.TelegramID = [] ∨ msg.From.ID ∈ envConfig.TelegramID)
    (hcmd : msg.IsCommand = true) :
    (∃ text, (handleUpdate envConfig botUsername w ⟨some msg⟩).filter isSend =
        [Action.Send msg.Chat.ID msg.MessageID text]) ∧
      (handleUpdate envConfig botUsername w ⟨some msg⟩).countP isBackendCall = 0 ∧
      (handleUpdate envConfig botUsername w ⟨some msg⟩).countP isLiveOutput = 0 ∧
      (msg.Command = "help" →
        effects (handleUpdate envConfig botUsername w ⟨some msg⟩) =
          [Action.Send msg.Chat.ID msg.MessageID
            "/reload - clear chatGPT conversation history (Telegram messages will not be deleted)\n/setToken <token> - set the openAI session token"]) ∧
      (msg.Command = "start" →
        effects (handleUpdate envConfig botUsername w ⟨some msg⟩) =
          [Action.Send msg.Chat.ID msg.MessageID
            "Send a message to start talking with ChatGPT. You can use /reload at any point to clear the conversation history and start from scratch (don't worry, it won't delete the Telegram messages)."]) ∧
      (msg.Command ≠ "help" → msg.Command ≠ "start" → msg.Command ≠ "setToken" →
        msg.Command ≠ "reload" →
        effects (handleUpdate envConfig botUsername w ⟨some msg⟩) =
          [Action.Send msg.Chat.ID msg.MessageID
            "Unknown command. Send /help to see a list of commands."]) ∧
      "/reload".data <:+: messageHelp.data ∧ "/setToken".data <:+: messageHelp.data := by
  have hna := notAllowed_false_of_authorized envConfig msg hauth
  have hnc := isConversation_of_command botUsername msg hcmd
  rw [effects_command envConfig botUsername w msg hna hnc,
    handleUpdate_command envConfig botUsername w msg hna hnc]
  refine ⟨⟨(commandSwitch w msg).2, ?_⟩, ?_, ?_, ?_, ?_, ?_, ?_, ?_⟩
  · rcases commandSwitch_calls w msg with h | h | h <;>
      rcases log_tail_cases (w.Send msg.Chat.ID msg.MessageID (commandSwitch w msg).2)
        with t | ⟨line, t⟩ <;>
      simp [h, t, isSend]
  · rcases commandSwitch_calls w msg with h | h | h <;>
      rcases log_tail_cases (w.Send msg.Chat.ID msg.MessageID (commandSwitch w msg).2)
        with t | ⟨line, t⟩ <;>
      simp [h, t, isBackendCall]
  · rcases commandSwitch_calls w msg with h | h | h <;>
      rcases log_tail_cases (w.Send msg.Chat.ID msg.MessageID (commandSwitch w msg).2)
        with t | ⟨line, t⟩ <;>
      simp [h, t, isLiveOutput]
  · intro hn
    simp [commandSwitch, hn, effects, messageHelp]
  · intro hn
    simp [commandSwitch, hn, effects, messageStart]
  · intro h1 h2 h3 h4
    simp [commandSwitch, h1, h2, h3, h4, effects]
  · exact ⟨[], " - clear chatGPT conversation history (Telegram messages will not be deleted)\n/setToken <token> - set the openAI session token".data, by decide⟩
  · exact ⟨"/reload - clear chatGPT conversation history (Telegram messages will not be deleted)\n".data, " <token> - set the openAI session token".data, by decide⟩

theorem C9_command_single_reply_witness :
    effects (handleUpdate (cfg [7]) "bot" okWorld ⟨some (commandMsg "/help" "help" "")⟩) =
        [Action.Send 100 13
          "/reload - clear chatGPT conversation history (Telegram messages will not be deleted)\n/setToken <token> - set the openAI session token"] ∧
      effects (handleUpdate (cfg [7]) "bot" okWorld ⟨some (commandMsg "/start" "start" "")⟩) =
        [Action.Send 100 13
          "Send a message to start talking with ChatGPT. You can use /reload at any point to clear the conversation history and start from scratch (don't worry, it won't delete the Telegram messages)."] ∧
      effects (handleUpdate (cfg [7]) "bot" okWorld ⟨some (commandMsg "/foo" "foo" "")⟩) =
        [Action.Send 100 13 "Unknown command. Send /help to see a list of commands."] :=
  ⟨(C9_command_single_reply (cfg [7]) "bot" okWorld (commandMsg "/help" "help" "")
      (Or.inr (by decide)) rfl).2.2.2.1 rfl,
   (C9_command_single_reply (cfg [7]) "bot" okWorld (commandMsg "/start" "start" "")
      (Or.inr (by decide)) rfl).2.2.2.2.1 rfl,
   (C9_command_single_reply (cfg [7]) "bot" okWorld (commandMsg "/foo" "foo" "")
      (Or.inr (by decide)) rfl).2.2.2.2.2.1 (by decide) (by decide) (by decide) (by decide)⟩

/-- C10: every call made while handling an update from chat c with message ID
m that carries a chat ID carries c, and every send or live output replies to
m; so no conversation-store or backend operation keyed by another chat is
invoked. -/
theorem C10_chat_locality (envConfig : EnvConfig) (botUsername : String) (w : World)
    (msg : Message) (a : Action)
    (ha : a ∈ handleUpdate envConfig botUsername w ⟨some msg⟩) :
    (∀ c, a.chat = some c → c = msg.Chat.ID) ∧
      (∀ m, a.reply = some m → m = msg.MessageID) := by
  cases h : notAllowed envConfig msg with
  | true =>
    rw [handleUpdate_rejected envConfig botUsername w msg h] at ha
    simp at ha
    rcases ha with rfl | rfl <;> simp [Action.chat, Action.reply]
  | false =>
    cases hc : isConversation botUsername msg with
    | true =>
      rw [handleUpdate_conversation envConfig botUsername w msg h hc] at ha
      cases hr : w.SendMessage msg.Text msg.Chat.ID with
      | error err =>
        simp [hr] at ha
        rcases ha with rfl | rfl | rfl <;> simp [Action.chat, Action.reply]
      | ok feed =>
        simp [hr] at ha
        rcases ha with rfl | rfl | rfl <;> simp [Action.chat, Action.reply]
    | false =>
      rw [handleUpdate_command envConfig botUsername w msg h hc] at ha
      rcases List.mem_append.1 ha with h1 | h1
      · rcases List.mem_append.1 h1 with h2 | h2
        · rcases commandSwitch_calls w msg with e | e | e <;> rw [e] at h2 <;>
            simp at h2 <;> subst h2 <;> simp [Action.chat, Action.reply]
        · simp at h2
          subst h2
          simp [Action.chat, Action.reply]
      · rcases log_tail_cases (w.Send msg.Chat.ID msg.MessageID (commandSwitch w msg).2)
          with t | ⟨line, t⟩ <;> rw [t] at h1 <;> simp at h1
        subst h1
        simp [Action.chat, Action.reply]

theorem C10_chat_locality_witness :
    (∀ c, (Action.ResetConversation 100).chat = some c →
        c = (commandMsg "/reload" "reload" "").Chat.ID) ∧
      (∀ m, (Action.ResetConversation 100).reply = some m →
        m = (commandMsg "/reload" "reload" "").MessageID) :=
  C10_chat_locality (cfg []) "bot" okWorld (commandMsg "/reload" "reload" "")
    (Action.ResetConversation 100) (by decide)

/-- C4: a non-command message in a group that does not mention the bot, from an
authorized sender, is not ignored by the loop body: it falls through to the
command switch and is answered with the unknown-command reply. -/
theorem C4_group_message_without_mention_answered :
    notAllowed (cfg []) (groupMsg "hello all") = false ∧
      (groupMsg "hello all").IsCommand = false ∧
      (groupMsg "hello all").Chat.IsPrivate = false ∧
      isAtChatBot "bot" (groupMsg "hello all") = false ∧
      handleUpdate (cfg []) "bot" okWorld ⟨some (groupMsg "hello all")⟩ =
        [Action.Send (-200) 12 "Unknown command. Send /help to see a list of commands."] := by
  decide

/-- C8: the duration handed to `tgbot.New` for `EditWaitSeconds = 5` is 5
nanoseconds, not 5 seconds (5,000,000,000 nanoseconds). -/
theorem C8_edit_interval_is_nanoseconds :
    editInterval ⟨[], "token", 5, false⟩ = ⟨5⟩ ∧
      (editInterval ⟨[], "token", 5, false⟩).ns ≠ 5 * Second.ns ∧
      5 * Second.ns = 5000000000 := by
  decide

end ChatGPTTelegram
